import Mathlib

/-!
# Verification of the DSM UDS protocol core

Shallow embedding of `src/dsm_protocol.py` (class `DSMProtocol`), the CAN
framing layer it relies on (`src/openport_connector.py`) and the GUI scan
loop of `src/dsm_reader_gui.py`, together with theorems checking the
natural-language specification against this embedding.

Modelling conventions:
* Byte strings are `List Nat`.  The Python code never masks received bytes,
  so received payload bytes are arbitrary naturals in the model.
* The asynchronous bus is modelled by a `Connector`: the boolean result of
  `send_can_frame` and the finite sequence of results that the successive
  `receive_can_frame(0.1)` calls made inside the 2.0 s deadline would
  return (`none` = the 0.1 s slice elapsed without a frame).  Exhausting
  the sequence models the overall deadline elapsing.
* Python `None` becomes `Option.none`; the distinct Python values
  `None` / `False` / `b''` stay distinct in the model.
-/

set_option autoImplicit false

/-- One result of `OpenPortConnector.receive_can_frame`: `none` when the
poll slice timed out, `some (canId, payload)` for a parsed frame line. -/
abbrev RxEvent := Option (Nat × List Nat)

/-- The observable behaviour of the connector during one UDS request:
whether `send_can_frame` returned `True`, and the successive
`receive_can_frame` results available before the 2.0 s deadline. -/
structure Connector where
  sendOk : Bool
  frames : List RxEvent
deriving DecidableEq

/-- `DSMProtocol.tx_id` (diagnostic request arbitration id). -/
def tx_id : Nat := 0x7E0

/-- `DSMProtocol.rx_id` (diagnostic response arbitration id). -/
def rx_id : Nat := 0x7E8

/-- The polling loop body of `DSMProtocol._send_uds`: take the next
`receive_can_frame` result; skip empty slices and frames whose arbitration
id differs from `rxId`; return the first matching payload; `none` once the
deadline (end of the event list) is reached. -/
def resolveFrames (rxId : Nat) : List RxEvent → Option (List Nat)
  | [] => none
  | none :: rest => resolveFrames rxId rest
  | some (respId, respData) :: rest =>
      if respId = rxId then some respData else resolveFrames rxId rest

/-- `DSMProtocol._send_uds(data)`: if `send_can_frame` fails return `None`
immediately, otherwise poll until a frame with the rx id arrives or the
deadline elapses.  The request bytes `data` are what goes out on the bus;
the simulated inbound traffic is fixed by the `Connector`. -/
def send_uds (rxId : Nat) (c : Connector) (data : List Nat) : Option (List Nat) :=
  if c.sendOk then resolveFrames rxId c.frames else none

/-- The request bytes built by `DSMProtocol.read_data_by_identifier`:
`[0x22, (data_id >> 8) & 0xFF, data_id & 0xFF]`. -/
def read_data_by_identifier_req (dataId : Nat) : List Nat :=
  [0x22, (dataId >>> 8) % 256, dataId % 256]

/-- `DSMProtocol.read_data_by_identifier`.  The Python guard
`response and len(response) > 2` holds exactly when the response matches
`b0 :: b1 :: b2 :: rest` (three or more bytes); then it checks
`response[0] == 0x62`, `response[1] == data_id >> 8` and
`response[2] == data_id & 0xFF` and returns `response[3:]`, else `None`. -/
def read_data_by_identifier (rxId : Nat) (c : Connector) (dataId : Nat) :
    Option (List Nat) :=
  match send_uds rxId c (read_data_by_identifier_req dataId) with
  | some (b0 :: b1 :: b2 :: rest) =>
      if b0 = 0x62 then
        if b1 = dataId >>> 8 ∧ b2 = dataId % 256 then some rest else none
      else none
  | _ => none

/-- Result type of `DSMProtocol.security_access`: the Python function
returns seed bytes (level 1 success), a boolean (level 2), or `None`. -/
inductive SAResult where
  | seed (s : List Nat) : SAResult
  | ok (b : Bool) : SAResult
  | absent : SAResult
deriving DecidableEq

/-- The level-1 request bytes of `DSMProtocol.security_access`. -/
def security_access_req1 : List Nat := [0x27, 0x01]

/-- The level-2 request bytes of `DSMProtocol.security_access`:
`[0x27, 0x02] + list(key)`. -/
def security_access_req2 (key : List Nat) : List Nat := [0x27, 0x02] ++ key

/-- `DSMProtocol.security_access(level, key)`.  Level 1: guard
`response and len(response) > 2` (three or more bytes), then
`response[0] == 0x67 and response[1] == 0x01`, returning `response[2:]` as
the seed.  Level 2 is entered only when `key` is truthy (non-`None` and
non-empty); it returns `response is not None`.  Every other path returns
`None`. -/
def security_access (rxId : Nat) (c : Connector) (level : Nat)
    (key : Option (List Nat)) : SAResult :=
  if level = 1 then
    match send_uds rxId c security_access_req1 with
    | some (b0 :: b1 :: b2 :: rest) =>
        if b0 = 0x67 ∧ b1 = 0x01 then SAResult.seed (b2 :: rest)
        else SAResult.absent
    | _ => SAResult.absent
  else if level = 2 then
    match key with
    | some k =>
        if k = [] then SAResult.absent
        else SAResult.ok (send_uds rxId c (security_access_req2 k)).isSome
    | none => SAResult.absent
  else SAResult.absent

/-- The request bytes built by `DSMProtocol.read_memory_by_address`:
`[0x23, 0x44, 0x22]` then the 4 address bytes and 2 length bytes,
big-endian, each masked with `& 0xFF`. -/
def read_memory_by_address_req (address length : Nat) : List Nat :=
  [0x23, 0x44, 0x22,
   (address >>> 24) % 256, (address >>> 16) % 256,
   (address >>> 8) % 256, address % 256,
   (length >>> 8) % 256, length % 256]

/-- `DSMProtocol.read_memory_by_address`.  The Python guard
`response and response[0] == 0x63` holds exactly when the response matches
`b0 :: rest` with `b0 = 0x63`; then it returns `response[1:]`, else
`None`. -/
def read_memory_by_address (rxId : Nat) (c : Connector) (address length : Nat) :
    Option (List Nat) :=
  match send_uds rxId c (read_memory_by_address_req address length) with
  | some (b0 :: rest) => if b0 = 0x63 then some rest else none
  | _ => none

/-- `DSMProtocol.start_session`: transmit `[0x10, 0x03]` and return the raw
resolved response. -/
def start_session (rxId : Nat) (c : Connector) : Option (List Nat) :=
  send_uds rxId c [0x10, 0x03]

/-- Python `range(start, stop, step)` for a positive `step`: the naturals
`start + i * step` for `i < ceil((stop - start) / step)`. -/
def pyRange (start stop step : Nat) : List Nat :=
  (List.range ((stop - start + step - 1) / step)).map (fun i => start + i * step)

/-- The loop body of `DSMProtocol.scan_eeprom_segments` over the identifier
list `range(start_id, end_id + 1, step)`: query each identifier with
`read_data_by_identifier` on that iteration's bus state (`env segId`), and
keep `(seg_id, data)` when `data and len(data) > 0`.  The `print` call and
the `time.sleep(0.02)` delay have no observable effect in the model. -/
def scan_eeprom_segments_loop (rxId : Nat) (env : Nat → Connector) :
    List Nat → List (Nat × List Nat)
  | [] => []
  | segId :: rest =>
      match read_data_by_identifier rxId (env segId) segId with
      | some d =>
          if d ≠ [] ∧ 0 < d.length then
            (segId, d) :: scan_eeprom_segments_loop rxId env rest
          else scan_eeprom_segments_loop rxId env rest
      | none => scan_eeprom_segments_loop rxId env rest

/-- `DSMProtocol.scan_eeprom_segments(start_id, end_id, step)`. -/
def scan_eeprom_segments (rxId : Nat) (env : Nat → Connector)
    (startId endId step : Nat) : List (Nat × List Nat) :=
  scan_eeprom_segments_loop rxId env (pyRange startId (endId + 1) step)

/-- Does one `receive_can_frame` result carry a frame whose arbitration id
is `rxId`?  (The match test `resp_id == self.rx_id` of `_send_uds`.) -/
def frameMatches (rxId : Nat) : RxEvent → Bool
  | some (respId, _) => respId == rxId
  | none => false

/-- Does any event in the window carry a frame with arbitration id `rxId`? -/
def hasMatch (rxId : Nat) (frames : List RxEvent) : Bool :=
  frames.any (frameMatches rxId)

/-- `scan_eeprom_segments` instrumented with the list of identifiers it
actually queries (first component), mirroring the same loop.  The source
loop has no interruption mechanism, so the queried list never depends on
the bus environment. -/
def scan_eeprom_segments_traced (rxId : Nat) (env : Nat → Connector) :
    List Nat → List Nat × List (Nat × List Nat)
  | [] => ([], [])
  | segId :: rest =>
      let r := scan_eeprom_segments_traced rxId env rest
      match read_data_by_identifier rxId (env segId) segId with
      | some d =>
          if d ≠ [] ∧ 0 < d.length then (segId :: r.1, (segId, d) :: r.2)
          else (segId :: r.1, r.2)
      | none => (segId :: r.1, r.2)

/-- The scan loop of `DSMReaderGUI.scan_dsm_thread`
(`src/dsm_reader_gui.py`): at the top of each iteration it reads the
`self.scanning` flag (`alive k` = the flag's value at iteration `k`) and
breaks before querying when the flag is cleared; otherwise it queries the
segment (`query`, modelling `read_dsm_segment`) and keeps `(seg_id, data)`
when `data` is truthy.  First component: the identifiers actually
queried. -/
def scan_dsm_thread_traced (alive : Nat → Bool) (query : Nat → Option (List Nat)) :
    Nat → List Nat → List Nat × List (Nat × List Nat)
  | _, [] => ([], [])
  | k, segId :: rest =>
      if alive k then
        let r := scan_dsm_thread_traced alive query (k + 1) rest
        match query segId with
        | some d =>
            if d ≠ [] then (segId :: r.1, (segId, d) :: r.2)
            else (segId :: r.1, r.2)
        | none => (segId :: r.1, r.2)
      else ([], [])

/-- Python sequence indexing `r[i]`: the value when `i` is in bounds, an
`IndexError` otherwise.  Used to show the source's response validation
never indexes out of bounds. -/
def listIndex (r : List Nat) (i : Nat) : Except String Nat :=
  match r.get? i with
  | some v => Except.ok v
  | none => Except.error "IndexError"

/-- `read_data_by_identifier` with every byte access evaluated in Python
order through `listIndex`, so an unguarded out-of-bounds access would
surface as an `IndexError`.  Mirrors the literal source: the guard
`response and len(response) > 2`, then `response[0] == 0x62`, then
`response[1] == data_id >> 8 and response[2] == data_id & 0xFF`
(short-circuit order). -/
def read_data_by_identifier_checked (rxId : Nat) (c : Connector) (dataId : Nat) :
    Except String (Option (List Nat)) :=
  match send_uds rxId c (read_data_by_identifier_req dataId) with
  | none => Except.ok none
  | some response =>
      if response ≠ [] ∧ 2 < response.length then do
        let b0 ← listIndex response 0
        if b0 = 0x62 then do
          let b1 ← listIndex response 1
          if b1 = dataId >>> 8 then do
            let b2 ← listIndex response 2
            if b2 = dataId % 256 then pure (some (response.drop 3))
            else pure none
          else pure none
        else pure none
      else Except.ok none

/-- `security_access` with every byte access evaluated in Python order
through `listIndex` (level 1 guard `response and len(response) > 2`, then
`response[0] == 0x67 and response[1] == 0x01`, short-circuit order). -/
def security_access_checked (rxId : Nat) (c : Connector) (level : Nat)
    (key : Option (List Nat)) : Except String SAResult :=
  if level = 1 then
    match send_uds rxId c security_access_req1 with
    | none => Except.ok SAResult.absent
    | some response =>
        if response ≠ [] ∧ 2 < response.length then do
          let b0 ← listIndex response 0
          if b0 = 0x67 then do
            let b1 ← listIndex response 1
            if b1 = 0x01 then pure (SAResult.seed (response.drop 2))
            else pure SAResult.absent
          else pure SAResult.absent
        else Except.ok SAResult.absent
  else if level = 2 then
    match key with
    | some k =>
        if k = [] then Except.ok SAResult.absent
        else Except.ok (SAResult.ok (send_uds rxId c (security_access_req2 k)).isSome)
    | none => Except.ok SAResult.absent
  else Except.ok SAResult.absent

/-- `read_memory_by_address` with every byte access evaluated in Python
order through `listIndex` (the guard `response and response[0] == 0x63`,
short-circuit order: truthiness of `response` is checked before
`response[0]` is read). -/
def read_memory_by_address_checked (rxId : Nat) (c : Connector)
    (address length : Nat) : Except String (Option (List Nat)) :=
  match send_uds rxId c (read_memory_by_address_req address length) with
  | none => Except.ok none
  | some response =>
      if response ≠ [] then do
        let b0 ← listIndex response 0
        if b0 = 0x63 then pure (some (response.drop 1)) else pure none
      else Except.ok none

/-- Modelled from the spec sentence for the level-1 seed rule, word for
word ("accepted only if byte0==0x67 and byte1==0x01, returning bytes from
offset 2 as the seed"), for comparison with the source's
`security_access`: it gates only on bytes 0 and 1 and has no minimum
length beyond their existence. -/
def securityAccessSeedGateSpec (resp : Option (List Nat)) : Option (List Nat) :=
  match resp with
  | some r =>
      if r.get? 0 = some 0x67 ∧ r.get? 1 = some 0x01 then some (r.drop 2)
      else none
  | none => none

/-! ## Helper lemmas on the polling loop -/

theorem resolveFrames_eq_none_iff (rxId : Nat) (frames : List RxEvent) :
    resolveFrames rxId frames = none ↔ hasMatch rxId frames = false := by
  induction frames with
  | nil => simp [resolveFrames, hasMatch]
  | cons e rest ih =>
      cases e with
      | none => simpa [resolveFrames, hasMatch, frameMatches] using ih
      | some ip =>
          obtain ⟨i, p⟩ := ip
          by_cases hi : i = rxId
          · subst hi
            simp [resolveFrames, hasMatch, frameMatches]
          · simp [resolveFrames, hasMatch, frameMatches, hi, ih]

theorem hasMatch_cons (rxId : Nat) (e : RxEvent) (rest : List RxEvent) :
    hasMatch rxId (e :: rest) = (frameMatches rxId e || hasMatch rxId rest) := by
  simp [hasMatch]

theorem resolveFrames_eq_some_iff (rxId : Nat) (d : List Nat)
    (frames : List RxEvent) :
    resolveFrames rxId frames = some d ↔
      ∃ pre rest, frames = pre ++ some (rxId, d) :: rest ∧
        hasMatch rxId pre = false := by
  induction frames with
  | nil => simp [resolveFrames]
  | cons e rest ih =>
      cases e with
      | none =>
          rw [show resolveFrames rxId (none :: rest) = resolveFrames rxId rest
                from rfl, ih]
          constructor
          · rintro ⟨pre, rest2, hfr, hpre⟩
            refine ⟨none :: pre, rest2, by rw [List.cons_append, hfr], ?_⟩
            rw [hasMatch_cons, show frameMatches rxId none = false from rfl,
              Bool.false_or]
            exact hpre
          · rintro ⟨pre, rest2, hfr, hpre⟩
            cases pre with
            | nil => simp at hfr
            | cons q pre2 =>
                rw [List.cons_append] at hfr
                injection hfr with h1 h2
                subst h1
                rw [hasMatch_cons] at hpre
                exact ⟨pre2, rest2, h2, (Bool.or_eq_false_iff.mp hpre).2⟩
      | some ip =>
          obtain ⟨i, p⟩ := ip
          by_cases hi : i = rxId
          · rw [show resolveFrames rxId (some (i, p) :: rest) = some p
                  from by simp [resolveFrames, hi]]
            constructor
            · intro h
              injection h with h
              exact ⟨[], rest, by rw [hi, h]; rfl, rfl⟩
            · rintro ⟨pre, rest2, hfr, hpre⟩
              cases pre with
              | nil =>
                  simp only [List.nil_append, List.cons.injEq, Option.some.injEq,
                    Prod.mk.injEq] at hfr
                  rw [hfr.1.2]
              | cons q pre2 =>
                  rw [List.cons_append] at hfr
                  injection hfr with h1 h2
                  subst h1
                  rw [hasMatch_cons] at hpre
                  have : frameMatches rxId (some (i, p)) = true := by
                    simp [frameMatches, hi]
                  rw [this] at hpre
                  cases hpre
          · rw [show resolveFrames rxId (some (i, p) :: rest) =
                  resolveFrames rxId rest from by simp [resolveFrames, hi], ih]
            have hfm : frameMatches rxId (some (i, p)) = false := by
              simp [frameMatches, hi]
            constructor
            · rintro ⟨pre, rest2, hfr, hpre⟩
              refine ⟨some (i, p) :: pre, rest2, by rw [List.cons_append, hfr], ?_⟩
              rw [hasMatch_cons, hfm, Bool.false_or]
              exact hpre
            · rintro ⟨pre, rest2, hfr, hpre⟩
              cases pre with
              | nil =>
                  simp only [List.nil_append, List.cons.injEq, Option.some.injEq,
                    Prod.mk.injEq] at hfr
                  exact absurd hfr.1.1 hi
              | cons q pre2 =>
                  rw [List.cons_append] at hfr
                  injection hfr with h1 h2
                  subst h1
                  rw [hasMatch_cons] at hpre
                  exact ⟨pre2, rest2, h2, (Bool.or_eq_false_iff.mp hpre).2⟩

theorem send_uds_isSome (rxId : Nat) (c : Connector) (data : List Nat) :
    (send_uds rxId c data).isSome = (c.sendOk && hasMatch rxId c.frames) := by
  obtain ⟨sendOk, frames⟩ := c
  cases sendOk with
  | false => simp [send_uds]
  | true =>
      simp only [send_uds, if_pos rfl, Bool.true_and]
      cases hm : hasMatch rxId frames with
      | false => simp [(resolveFrames_eq_none_iff rxId frames).mpr hm]
      | true =>
          cases hr : resolveFrames rxId frames with
          | none => rw [(resolveFrames_eq_none_iff rxId frames).mp hr] at hm; cases hm
          | some d => simp

/-! ## Helper lemmas on the scan loops and on `pyRange` -/

theorem scan_traced_queries (rxId : Nat) (env : Nat → Connector)
    (ids : List Nat) :
    (scan_eeprom_segments_traced rxId env ids).1 = ids := by
  induction ids with
  | nil => rfl
  | cons segId rest ih =>
      rw [scan_eeprom_segments_traced]
      cases read_data_by_identifier rxId (env segId) segId with
      | none => simpa using ih
      | some d =>
          by_cases hd : d ≠ [] ∧ 0 < d.length <;> simp [hd, ih]

theorem scan_traced_segments (rxId : Nat) (env : Nat → Connector)
    (ids : List Nat) :
    (scan_eeprom_segments_traced rxId env ids).2 =
      scan_eeprom_segments_loop rxId env ids := by
  induction ids with
  | nil => rfl
  | cons segId rest ih =>
      rw [scan_eeprom_segments_traced, scan_eeprom_segments_loop]
      cases read_data_by_identifier rxId (env segId) segId with
      | none => simpa using ih
      | some d =>
          by_cases hd : d ≠ [] ∧ 0 < d.length <;> simp [hd, ih]

theorem scan_loop_eq_filterMap (rxId : Nat) (env : Nat → Connector)
    (ids : List Nat) :
    scan_eeprom_segments_loop rxId env ids =
      ids.filterMap (fun id =>
        match read_data_by_identifier rxId (env id) id with
        | some d => if d = [] then none else some (id, d)
        | none => none) := by
  induction ids with
  | nil => rfl
  | cons segId rest ih =>
      rw [scan_eeprom_segments_loop, List.filterMap_cons]
      cases h : read_data_by_identifier rxId (env segId) segId with
      | none => simpa using ih
      | some d =>
          by_cases hd : d = []
          · subst hd
            simpa using ih
          · simp [hd, List.length_pos.mpr hd, ih]

theorem pyRange_index_iff (s e step i : Nat) (h : 0 < step) :
    i < (e + 1 - s + step - 1) / step ↔ s + i * step ≤ e := by
  rw [Nat.lt_iff_add_one_le, Nat.le_div_iff_mul_le h]
  have h2 : (i + 1) * step = i * step + step := by ring
  rw [h2]
  generalize i * step = x
  omega

theorem pyRange_mem_iff (s e step id : Nat) (h : 0 < step) :
    id ∈ pyRange s (e + 1) step ↔ ∃ k, id = s + k * step ∧ id ≤ e := by
  simp only [pyRange, List.mem_map, List.mem_range]
  constructor
  · rintro ⟨i, hi, rfl⟩
    exact ⟨i, rfl, (pyRange_index_iff s e step i h).mp hi⟩
  · rintro ⟨k, rfl, hk⟩
    exact ⟨k, (pyRange_index_iff s e step k h).mpr hk, rfl⟩

theorem pyRange_pairwise (s stop step : Nat) (h : 0 < step) :
    List.Pairwise (fun a b => a < b) (pyRange s stop step) := by
  refine (List.pairwise_lt_range _).map (fun i => s + i * step) ?_
  intro a b hab
  exact Nat.add_lt_add_left (mul_lt_mul_of_pos_right hab h) s

/-! ## Claim theorems -/

/-- **C1**: for every 16-bit identifier `dataId`, `read_data_by_identifier`
returns the response bytes from offset 3 onward exactly when the resolved
response has byte 0 = `0x62` and bytes 1 and 2 echoing `dataId >> 8` and
`dataId & 0xFF`; in every other case — wrong service byte, mismatched
echo, short or negative response, send failure or timeout — it returns
the single value `none` (second conjunct and the `↔`, by `Option`
dichotomy), so the failure causes are indistinguishable from the result. -/
theorem read_data_by_identifier_spec (rxId : Nat) (c : Connector)
    (dataId : Nat) (h16 : dataId < 65536) :
    (∀ out, read_data_by_identifier rxId c dataId = some out ↔
      ∃ r, send_uds rxId c (read_data_by_identifier_req dataId) = some r ∧
        r.get? 0 = some 0x62 ∧ r.get? 1 = some (dataId >>> 8) ∧
        r.get? 2 = some (dataId % 256) ∧ out = r.drop 3) ∧
    (send_uds rxId c (read_data_by_identifier_req dataId) = none →
      read_data_by_identifier rxId c dataId = none) := by
  constructor
  · intro out
    unfold read_data_by_identifier
    cases hs : send_uds rxId c (read_data_by_identifier_req dataId) with
    | none => simp
    | some r =>
        rcases r with _ | ⟨b0, _ | ⟨b1, _ | ⟨b2, rest⟩⟩⟩
        · simp
        · simp
        · simp
        · dsimp only
          split_ifs with h0 h12
          · simp [h0, h12.1, h12.2, eq_comm]
          · simp only [Option.some.injEq, List.cons.injEq, List.get?_cons_zero,
              List.get?_cons_succ]
            simp
            intro hb0 hb1 hb2
            exact absurd ⟨hb1, hb2⟩ h12
          · simp only [Option.some.injEq, List.cons.injEq, List.get?_cons_zero,
              List.get?_cons_succ]
            simp
            intro hb0
            exact absurd hb0 h0
  · intro hs
    unfold read_data_by_identifier
    rw [hs]

/-- **C2**: for every identifier in `[0x0000, 0xFFFF]`, the request bytes
`read_data_by_identifier` hands to `_send_uds` (and hence to
`send_can_frame`) are exactly the 3 bytes `[0x22, id >> 8, id & 0xFF]`. -/
theorem read_data_by_identifier_encoding (dataId : Nat) (h16 : dataId < 65536) :
    read_data_by_identifier_req dataId = [0x22, dataId >>> 8, dataId % 256] := by
  unfold read_data_by_identifier_req
  have hs : dataId >>> 8 < 256 := by
    rw [Nat.shiftRight_eq_div_pow]
    omega
  rw [Nat.mod_eq_of_lt hs]

/-- **C4**: `read_memory_by_address(address, length)` (32-bit address,
16-bit length) transmits exactly the 9 bytes
`[0x23, 0x44, 0x22, a>>24, (a>>16)&0xFF, (a>>8)&0xFF, a&0xFF, n>>8, n&0xFF]`
and returns the response bytes from offset 1 exactly when the resolved
response's byte 0 is `0x63`, otherwise `none`. -/
theorem read_memory_by_address_spec (rxId : Nat) (c : Connector)
    (address length : Nat) (ha : address < 4294967296) (hl : length < 65536) :
    read_memory_by_address_req address length =
      [0x23, 0x44, 0x22, address >>> 24, (address >>> 16) % 256,
       (address >>> 8) % 256, address % 256, length >>> 8, length % 256] ∧
    (∀ out, read_memory_by_address rxId c address length = some out ↔
      ∃ r, send_uds rxId c (read_memory_by_address_req address length) = some r ∧
        r.get? 0 = some 0x63 ∧ out = r.drop 1) ∧
    (send_uds rxId c (read_memory_by_address_req address length) = none →
      read_memory_by_address rxId c address length = none) := by
  refine ⟨?_, ?_, ?_⟩
  · unfold read_memory_by_address_req
    have h1 : address >>> 24 < 256 := by
      rw [Nat.shiftRight_eq_div_pow]
      omega
    have h2 : length >>> 8 < 256 := by
      rw [Nat.shiftRight_eq_div_pow]
      omega
    rw [Nat.mod_eq_of_lt h1, Nat.mod_eq_of_lt h2]
  · intro out
    unfold read_memory_by_address
    cases hs : send_uds rxId c (read_memory_by_address_req address length) with
    | none => simp
    | some r =>
        rcases r with _ | ⟨b0, rest⟩
        · simp
        · dsimp only
          split_ifs with h0
          · simp [h0, eq_comm]
          · simp
            intro hb0
            exact absurd hb0 h0
  · intro hs
    unfold read_memory_by_address
    rw [hs]

/-- **C5** (amended): the request/response loop `_send_uds` returns `none`
immediately when the CAN send fails (for every inbound window, i.e. no
polling), and otherwise resolves exactly the payload of the first frame
whose arbitration id equals the client's rx id — frames with any other id
are skipped and polling continues until a match or the end of the deadline
window, which yields `none`.  At the operation level a failed send yields
each operation's no-response value: `none` for `read_data_by_identifier`,
`read_memory_by_address` and `start_session`, `absent` for level-1
`security_access`, and the boolean `false` (not `None`) for level-2
`security_access`.  The default rx id is 0x7E8. -/
theorem send_uds_resolution (rxId : Nat) (frames : List RxEvent)
    (data : List Nat) :
    (send_uds rxId ⟨false, frames⟩ data = none) ∧
    (∀ d, send_uds rxId ⟨true, frames⟩ data = some d →
        ∃ pre rest, frames = pre ++ some (rxId, d) :: rest ∧
          hasMatch rxId pre = false) ∧
    (∀ pre d rest, frames = pre ++ some (rxId, d) :: rest →
        hasMatch rxId pre = false →
        send_uds rxId ⟨true, frames⟩ data = some d) ∧
    (hasMatch rxId frames = false → send_uds rxId ⟨true, frames⟩ data = none) ∧
    (∀ dataId, read_data_by_identifier rxId ⟨false, frames⟩ dataId = none) ∧
    (security_access rxId ⟨false, frames⟩ 1 none = SAResult.absent) ∧
    (∀ k, k ≠ [] →
        security_access rxId ⟨false, frames⟩ 2 (some k) = SAResult.ok false) ∧
    (∀ a n, read_memory_by_address rxId ⟨false, frames⟩ a n = none) ∧
    (start_session rxId ⟨false, frames⟩ = none) ∧
    rx_id = 0x7E8 := by
  have hsend : send_uds rxId ⟨true, frames⟩ data = resolveFrames rxId frames := by
    simp [send_uds]
  refine ⟨?_, ?_, ?_, ?_, ?_, ?_, ?_, ?_, ?_, rfl⟩
  · simp [send_uds]
  · intro d h
    rw [hsend] at h
    exact (resolveFrames_eq_some_iff rxId d frames).mp h
  · intro pre d rest hfr hpre
    rw [hsend]
    exact (resolveFrames_eq_some_iff rxId d frames).mpr ⟨pre, rest, hfr, hpre⟩
  · intro hm
    rw [hsend]
    exact (resolveFrames_eq_none_iff rxId frames).mpr hm
  · intro dataId
    simp [read_data_by_identifier, send_uds]
  · simp [security_access, send_uds]
  · intro k hk
    simp [security_access, send_uds, hk]
  · intro a n
    simp [read_memory_by_address, send_uds]
  · simp [start_session, send_uds]

/-- **C5** counterexample to the claim as stated: when the CAN send fails,
level-2 `security_access` returns the boolean `False` (Python
`response is not None` with `response = None`), which is a different value
from the `None`/"absent" result the claim asserts for every operation. -/
theorem security_access_send_fail_not_absent :
    security_access rx_id ⟨false, []⟩ 2 (some [0x11]) = SAResult.ok false ∧
    SAResult.ok false ≠ SAResult.absent := by decide

/-- **C3** (code bug): the request frame transmitted by every
`read_memory_by_address` call carries 9 payload bytes (18 hex characters
on the `t` line), violating the claimed classic-CAN invariant of at most
8 payload bytes per transmitted frame; evaluated at the spec's own example
input `(0x12345678, 0x0100)`.  The other fixed requests respect the
bound. -/
theorem read_memory_request_exceeds_can_payload :
    (read_memory_by_address_req 0x12345678 0x0100).length = 9 ∧
    ¬ (read_memory_by_address_req 0x12345678 0x0100).length ≤ 8 ∧
    (read_data_by_identifier_req 0xF100).length ≤ 8 ∧
    security_access_req1.length ≤ 8 := by decide

/-- **C6** (amended): level-1 `security_access` transmits `[0x27, 0x01]`
and returns the bytes from offset 2 as the seed exactly when the resolved
response has more than 2 bytes (so a non-empty seed region) with byte 0 =
`0x67` and byte 1 = `0x01`; otherwise it returns the absent value, and it
never returns a boolean.  In particular a response
`[0x67, 0x01, 0xAA, 0xBB]` yields the seed `[0xAA, 0xBB]`.  (The claim as
stated omits the length requirement; see the counterexample.) -/
theorem security_access_level1_spec (rxId : Nat) (c : Connector) :
    security_access_req1 = [0x27, 0x01] ∧
    (∀ s, security_access rxId c 1 none = SAResult.seed s ↔
      ∃ r, send_uds rxId c security_access_req1 = some r ∧ 2 < r.length ∧
        r.get? 0 = some 0x67 ∧ r.get? 1 = some 0x01 ∧ s = r.drop 2) ∧
    (∀ b, security_access rxId c 1 none ≠ SAResult.ok b) ∧
    security_access 0x7E8 ⟨true, [some (0x7E8, [0x67, 0x01, 0xAA, 0xBB])]⟩ 1
      none = SAResult.seed [0xAA, 0xBB] := by
  refine ⟨rfl, ?_, ?_, by decide⟩
  · intro s
    unfold security_access
    rw [if_pos rfl]
    cases hs : send_uds rxId c security_access_req1 with
    | none => simp
    | some r =>
        rcases r with _ | ⟨b0, _ | ⟨b1, _ | ⟨b2, rest⟩⟩⟩
        · simp
        · simp
        · simp
        · dsimp only
          split_ifs with h01
          · simp [h01.1, h01.2, eq_comm]
          · constructor
            · intro h
              simp at h
            · rintro ⟨r, hr, hlen, hb0, hb1, hs2⟩
              injection hr with hr
              subst hr
              simp at hb0 hb1
              exact absurd ⟨hb0, hb1⟩ h01
  · intro b
    unfold security_access
    rw [if_pos rfl]
    cases hs : send_uds rxId c security_access_req1 with
    | none => simp
    | some r =>
        rcases r with _ | ⟨b0, _ | ⟨b1, _ | ⟨b2, rest⟩⟩⟩
        · simp
        · simp
        · simp
        · dsimp only
          split_ifs with h01 <;> simp

/-- **C6** counterexample to the claim as stated: on the resolved response
`[0x67, 0x01]` both gating bytes match, so the claimed rule (formalised
verbatim as `securityAccessSeedGateSpec`) returns the empty seed, but the
source's `len(response) > 2` guard makes `security_access` return the
absent value instead. -/
theorem security_access_seed_gap :
    send_uds 0x7E8 ⟨true, [some (0x7E8, [0x67, 0x01])]⟩ security_access_req1 =
      some [0x67, 0x01] ∧
    securityAccessSeedGateSpec
      (send_uds 0x7E8 ⟨true, [some (0x7E8, [0x67, 0x01])]⟩
        security_access_req1) = some [] ∧
    security_access 0x7E8 ⟨true, [some (0x7E8, [0x67, 0x01])]⟩ 1 none =
      SAResult.absent := by decide

/-- **C7** (amended): for every *non-empty* key, level-2 `security_access`
transmits `[0x27, 0x02] ++ key` and returns the boolean that is true
exactly when the send succeeded and some frame with the rx arbitration id
was received before the deadline, regardless of that frame's content.
(The claim as stated fails for the empty key; see the counterexample.) -/
theorem security_access_level2_spec (rxId : Nat) (c : Connector)
    (key : List Nat) (hk : key ≠ []) :
    security_access_req2 key = 0x27 :: 0x02 :: key ∧
    security_access rxId c 2 (some key) =
      SAResult.ok (c.sendOk && hasMatch rxId c.frames) ∧
    (security_access rxId c 2 (some key) = SAResult.ok true ↔
      c.sendOk = true ∧ hasMatch rxId c.frames = true) := by
  have h2 : security_access rxId c 2 (some key) =
      SAResult.ok (send_uds rxId c (security_access_req2 key)).isSome := by
    simp [security_access, hk]
  refine ⟨rfl, ?_, ?_⟩
  · rw [h2, send_uds_isSome]
  · rw [h2, send_uds_isSome]
    simp

/-- **C7** counterexample to the claim as stated: with the empty key the
Python truthiness test `level == 2 and key` fails, so `security_access`
transmits nothing and returns `None` — not a boolean — even though a
response frame with the rx id was available on the bus. -/
theorem security_access_empty_key_gap :
    security_access 0x7E8 ⟨true, [some (0x7E8, [0x50])]⟩ 2 (some []) =
      SAResult.absent ∧
    hasMatch 0x7E8 [some (0x7E8, [0x50])] = true ∧
    SAResult.absent ≠ SAResult.ok true ∧
    SAResult.absent ≠ SAResult.ok false := by decide

/-- **C8**: for every positive step, the identifiers the segment scan
queries are exactly `start, start+step, start+2*step, …` up to and
including `end` (closed range, conjuncts 1 and 3), in strictly ascending
order (conjunct 2); the returned list is exactly the `(identifier, data)`
pairs whose data came back non-empty, in that same order (conjunct 4,
`filterMap` preserves the query order and skips absent/failed
identifiers without aborting); scanning `[0xF100, 0xF120]` with step
`0x10` issues exactly the 3 queries `0xF100, 0xF110, 0xF120`
(conjunct 5). -/
theorem scan_eeprom_segments_spec (rxId : Nat) (env : Nat → Connector)
    (startId endId step : Nat) (h : 0 < step) :
    (∀ id, id ∈ pyRange startId (endId + 1) step ↔
      ∃ k, id = startId + k * step ∧ id ≤ endId) ∧
    List.Pairwise (fun a b => a < b) (pyRange startId (endId + 1) step) ∧
    (scan_eeprom_segments_traced rxId env (pyRange startId (endId + 1) step)).1 =
      pyRange startId (endId + 1) step ∧
    scan_eeprom_segments rxId env startId endId step =
      (pyRange startId (endId + 1) step).filterMap (fun id =>
        match read_data_by_identifier rxId (env id) id with
        | some d => if d = [] then none else some (id, d)
        | none => none) ∧
    (scan_eeprom_segments_traced rxId env (pyRange 0xF100 (0xF120 + 1) 0x10)).1 =
      [0xF100, 0xF110, 0xF120] := by
  refine ⟨fun id => pyRange_mem_iff startId endId step id h,
    pyRange_pairwise _ _ _ h,
    scan_traced_queries _ _ _,
    scan_loop_eq_filterMap _ _ _,
    ?_⟩
  rw [scan_traced_queries]
  decide

/-- **C9** (amended): the protocol-level `scan_eeprom_segments` has no
liveness check — the identifiers it queries are the whole range whatever
the bus environment does (conjunct 1) — while the GUI scan loop
(`scan_dsm_thread` in `src/dsm_reader_gui.py`) checks the `scanning` flag
between consecutive queries, never mid-request: when the flag is cleared
at an iteration it stops before issuing that iteration's query
(conjunct 2), and while the flag holds it issues the query and proceeds
(conjunct 3). -/
theorem scan_cooperative_interruption (rxId : Nat) (env : Nat → Connector)
    (alive : Nat → Bool) (query : Nat → Option (List Nat))
    (k segId : Nat) (ids rest : List Nat) :
    ((scan_eeprom_segments_traced rxId env ids).1 = ids) ∧
    (alive k = false →
      scan_dsm_thread_traced alive query k (segId :: rest) = ([], [])) ∧
    (alive k = true →
      (scan_dsm_thread_traced alive query k (segId :: rest)).1 =
        segId :: (scan_dsm_thread_traced alive query (k + 1) rest).1) := by
  refine ⟨scan_traced_queries _ _ _, ?_, ?_⟩
  · intro h
    simp [scan_dsm_thread_traced, h]
  · intro h
    rw [scan_dsm_thread_traced]
    simp only [h, if_true]
    cases query segId with
    | none => rfl
    | some d => by_cases hd : d = [] <;> simp [hd]

/-- **C9** counterexample to the claim as stated for the code it cites:
`scan_eeprom_segments` takes no liveness signal, and no environment
whatsoever can make it stop early — over the spec's example range
`[0xF100, 0xF120]` step `0x10` it always issues all three queries, so
"if the signal is cleared, [the scan] stops before issuing the next
query" is false of the protocol-level scan. -/
theorem scan_eeprom_no_interruption :
    ¬ ∃ env : Nat → Connector,
      (scan_eeprom_segments_traced rx_id env
          (pyRange 0xF100 (0xF120 + 1) 0x10)).1 ≠
        pyRange 0xF100 (0xF120 + 1) 0x10 := by
  rintro ⟨env, h⟩
  exact h (scan_traced_queries rx_id env _)

/-- **C10**: response validation is total — re-running each UDS operation
with every Python byte access routed through bounds-checked indexing
(`listIndex`, which raises where Python would raise `IndexError`) always
yields `Except.ok` of the plain result, for every connector behaviour,
identifier, level, key, address and length; hence no operation ever
indexes past the end of the received payload, and short payloads fall
into the guarded "absent" paths. -/
theorem uds_validation_total (rxId : Nat) (c : Connector)
    (dataId level address length : Nat) (key : Option (List Nat)) :
    read_data_by_identifier_checked rxId c dataId =
      Except.ok (read_data_by_identifier rxId c dataId) ∧
    security_access_checked rxId c level key =
      Except.ok (security_access rxId c level key) ∧
    read_memory_by_address_checked rxId c address length =
      Except.ok (read_memory_by_address rxId c address length) := by
  refine ⟨?_, ?_, ?_⟩
  · unfold read_data_by_identifier_checked read_data_by_identifier
    cases hs : send_uds rxId c (read_data_by_identifier_req dataId) with
    | none => rfl
    | some r =>
        rcases r with _ | ⟨b0, _ | ⟨b1, _ | ⟨b2, rest⟩⟩⟩
        · simp
        · simp
        · simp
        · simp only [listIndex, List.get?_cons_zero, List.get?_cons_succ]
          simp only [bind, Except.bind, pure, Except.pure]
          split_ifs <;> simp_all
  · unfold security_access_checked security_access
    by_cases h1 : level = 1
    · rw [if_pos h1, if_pos h1]
      cases hs : send_uds rxId c security_access_req1 with
      | none => rfl
      | some r =>
          rcases r with _ | ⟨b0, _ | ⟨b1, _ | ⟨b2, rest⟩⟩⟩
          · simp
          · simp
          · simp
          · simp only [listIndex, List.get?_cons_zero, List.get?_cons_succ]
            simp only [bind, Except.bind, pure, Except.pure]
            split_ifs <;> simp_all
    · rw [if_neg h1, if_neg h1]
      by_cases h2 : level = 2
      · rw [if_pos h2, if_pos h2]
        cases key with
        | none => rfl
        | some k => by_cases hk : k = [] <;> simp [hk]
      · rw [if_neg h2, if_neg h2]
  · unfold read_memory_by_address_checked read_memory_by_address
    cases hs : send_uds rxId c (read_memory_by_address_req address length) with
    | none => rfl
    | some r =>
        rcases r with _ | ⟨b0, rest⟩
        · simp
        · simp only [listIndex, List.get?_cons_zero]
          simp only [bind, Except.bind, pure, Except.pure]
          split_ifs <;> simp_all

/-! ## Witnesses -/

/-- Witness for `read_data_by_identifier_spec`: the spec's simulated-bus
example, identifier `0xF190`, response `[0x62, 0xF1, 0x90, 0xAB, 0xCD]`,
result `[0xAB, 0xCD]`. -/
theorem read_data_by_identifier_spec_witness :
    0xF190 < 65536 ∧
    read_data_by_identifier 0x7E8
      ⟨true, [some (0x7E8, [0x62, 0xF1, 0x90, 0xAB, 0xCD])]⟩ 0xF190 =
      some [0xAB, 0xCD] ∧
    (∀ out, read_data_by_identifier 0x7E8
        ⟨true, [some (0x7E8, [0x62, 0xF1, 0x90, 0xAB, 0xCD])]⟩ 0xF190 =
          some out ↔
      ∃ r, send_uds 0x7E8
          ⟨true, [some (0x7E8, [0x62, 0xF1, 0x90, 0xAB, 0xCD])]⟩
          (read_data_by_identifier_req 0xF190) = some r ∧
        r.get? 0 = some 0x62 ∧ r.get? 1 = some (0xF190 >>> 8) ∧
        r.get? 2 = some (0xF190 % 256) ∧ out = r.drop 3) :=
  ⟨by decide, by decide,
    (read_data_by_identifier_spec 0x7E8
      ⟨true, [some (0x7E8, [0x62, 0xF1, 0x90, 0xAB, 0xCD])]⟩ 0xF190
      (by decide)).1⟩

/-- Witness for `read_data_by_identifier_encoding` at identifier `0xF190`. -/
theorem read_data_by_identifier_encoding_witness :
    0xF190 < 65536 ∧
    read_data_by_identifier_req 0xF190 = [0x22, 0xF190 >>> 8, 0xF190 % 256] ∧
    read_data_by_identifier_req 0xF190 = [0x22, 0xF1, 0x90] :=
  ⟨by decide, read_data_by_identifier_encoding 0xF190 (by decide), by decide⟩

/-- Witness for `read_memory_by_address_spec`: the spec's encoding example
`readMemoryByAddress(0x12345678, 0x0100)`. -/
theorem read_memory_by_address_spec_witness :
    0x12345678 < 4294967296 ∧ 0x0100 < 65536 ∧
    read_memory_by_address_req 0x12345678 0x0100 =
      [0x23, 0x44, 0x22, 0x12345678 >>> 24, (0x12345678 >>> 16) % 256,
       (0x12345678 >>> 8) % 256, 0x12345678 % 256,
       0x0100 >>> 8, 0x0100 % 256] ∧
    read_memory_by_address_req 0x12345678 0x0100 =
      [0x23, 0x44, 0x22, 0x12, 0x34, 0x56, 0x78, 0x01, 0x00] :=
  ⟨by decide, by decide,
    (read_memory_by_address_spec 0x7E8 ⟨true, []⟩ 0x12345678 0x0100
      (by decide) (by decide)).1, by decide⟩

/-- Witness for `send_uds_resolution`: a window holding a non-matching
frame and an empty slice before the matching frame; the loop skips both
and resolves the first rx-id frame's payload. -/
theorem send_uds_resolution_witness :
    hasMatch 0x7E8 [some (0x123, [1]), none] = false ∧
    send_uds 0x7E8
      ⟨true, [some (0x123, [1]), none, some (0x7E8, [0x50, 0x03]),
        some (0x7E8, [9])]⟩ [0x10, 0x03] = some [0x50, 0x03] :=
  ⟨by decide,
    (send_uds_resolution 0x7E8
        [some (0x123, [1]), none, some (0x7E8, [0x50, 0x03]),
          some (0x7E8, [9])] [0x10, 0x03]).2.2.1
      [some (0x123, [1]), none] [0x50, 0x03] [some (0x7E8, [9])] rfl
      (by decide)⟩

/-- Witness for `security_access_level1_spec`: the spec's seed example. -/
theorem security_access_level1_spec_witness :
    security_access 0x7E8 ⟨true, [some (0x7E8, [0x67, 0x01, 0xAA, 0xBB])]⟩ 1
      none = SAResult.seed [0xAA, 0xBB] :=
  (security_access_level1_spec 0x7E8
    ⟨true, [some (0x7E8, [0x67, 0x01, 0xAA, 0xBB])]⟩).2.2.2

/-- Witness for `security_access_level2_spec`: a non-empty key and a bus
carrying a negative response frame; the operation still reports `true`. -/
theorem security_access_level2_spec_witness :
    ([0x35, 0x0A] : List Nat) ≠ [] ∧
    security_access 0x7E8 ⟨true, [some (0x7E8, [0x7F, 0x27])]⟩ 2
      (some [0x35, 0x0A]) =
      SAResult.ok (true && hasMatch 0x7E8 [some (0x7E8, [0x7F, 0x27])]) :=
  ⟨by decide,
    (security_access_level2_spec 0x7E8 ⟨true, [some (0x7E8, [0x7F, 0x27])]⟩
      [0x35, 0x0A] (by decide)).2.1⟩

/-- Witness for `scan_eeprom_segments_spec`: the spec's 3-query example
range, on a bus that never answers. -/
theorem scan_eeprom_segments_spec_witness :
    0 < 0x10 ∧
    (scan_eeprom_segments_traced 0x7E8 (fun _ => ⟨true, []⟩)
        (pyRange 0xF100 (0xF120 + 1) 0x10)).1 = [0xF100, 0xF110, 0xF120] :=
  ⟨by decide,
    (scan_eeprom_segments_spec 0x7E8 (fun _ => ⟨true, []⟩) 0xF100 0xF120 0x10
      (by decide)).2.2.2.2⟩

/-- Witness for `scan_cooperative_interruption`: with the flag cleared at
iteration 1, the GUI loop issues no further query. -/
theorem scan_cooperative_interruption_witness :
    (fun n => decide (n = 0)) 1 = false ∧
    scan_dsm_thread_traced (fun n => decide (n = 0)) (fun _ => some [1, 2]) 1
      [0xF101] = ([], []) :=
  ⟨by decide,
    (scan_cooperative_interruption 0x7E8 (fun _ => ⟨true, []⟩)
        (fun n => decide (n = 0)) (fun _ => some [1, 2]) 1 0xF101 [] []).2.1
      (by decide)⟩

/-- Witness for `uds_validation_total`: a one-byte (too short) response
falls into the guarded absent path with no `IndexError`. -/
theorem uds_validation_total_witness :
    read_data_by_identifier_checked 0x7E8 ⟨true, [some (0x7E8, [0x62])]⟩
      0xF100 =
      Except.ok (read_data_by_identifier 0x7E8 ⟨true, [some (0x7E8, [0x62])]⟩
        0xF100) :=
  (uds_validation_total 0x7E8 ⟨true, [some (0x7E8, [0x62])]⟩ 0xF100 1 0 0
    none).1
